import Mathlib

/-!
Verification of the Dota 2 update-monitoring pipeline.

The development shallowly embeds the JavaScript sources:
* `update-processor.js` (class `UpdateProcessor`): deduplication by
  changenumber, normalization of raw PICS blobs, and state persistence;
* `steam-monitor.js` (class `SteamMonitor`): the reconnect state machine
  with exponential backoff;
* `index.js` (`runLiveMode`): the event handler wiring processing to the
  Discord delivery sink.

JavaScript values flowing through the loosely-shaped PICS data blobs are
modelled by `JSValue`.  `null` and `undefined` are merged into
`JSValue.null`: in every construct the sources apply to these blobs
(optional chaining `?.`, nullish coalescing `??`, `Object.entries`,
truthiness tests, `typeof` on entry values originating from JSON-like
data) the two are interchangeable.
-/

/-- A JavaScript value as it appears in PICS data blobs.  Objects carry
their fields as an ordered association list. -/
inductive JSValue where
  | null : JSValue
  | bool : Bool → JSValue
  | num : Int → JSValue
  | str : String → JSValue
  | obj : List (String × JSValue) → JSValue

/-- Nullish test (`v == null` in JS, covering `undefined` as well). -/
def isNull : JSValue → Bool
  | .null => true
  | _ => false

/-- JS nullish coalescing `v ?? d`. -/
def orD (v d : JSValue) : JSValue := if isNull v then d else v

/-- Optional-chained property access `v?.k`: field lookup on objects,
nullish for everything else or for a missing key. -/
def jget : JSValue → String → JSValue
  | .obj fs, k => (((fs.find? (fun kv => kv.1 = k)).map (fun kv => kv.2)).getD .null)
  | _, _ => .null

/-- JS truthiness of a value. -/
def truthy : JSValue → Bool
  | .null => false
  | .bool b => b
  | .num n => n != 0
  | .str s => s ≠ ""
  | .obj _ => true

/-- The JS `typeof` operator (restricted to the values `JSValue` models);
note the classic quirk `typeof null === 'object'`. -/
def jsTypeof : JSValue → String
  | .null => "object"
  | .bool _ => "boolean"
  | .num _ => "number"
  | .str _ => "string"
  | .obj _ => "object"

/-- The regular expression test `/^\d+$/.test s`: nonempty and all digits
(stated on the character list of the string). -/
def isDigits (s : String) : Bool := s.toList ≠ [] && s.toList.all Char.isDigit

/-- `DOTA2_APP_ID` from `config.js`. -/
def DOTA2_APP_ID : Int := 570

-- ── Update processor data model (update-processor.js) ──────────────────

/-- The raw event emitted by `SteamMonitor` and consumed by
`UpdateProcessor.process`.  The event-level changenumber is
`number|null` (modelled `Option Int`); timestamps are opaque integers. -/
structure UpdateEvent where
  appid : Int
  data : JSValue
  changenumber : Option Int
  timestamp : Int

/-- One entry of the `changedDepots` list built by
`#extractChangedDepots`: `{id, name: value?.name ?? null,
maxsize: value?.maxsize ?? null}`. -/
structure Depot where
  id : String
  name : JSValue
  maxsize : JSValue

/-- One entry of the `branches` list built by `#extractBranches`.
`timeUpdated` is `some v` for `new Date(v * 1000)` and `none` for the
JS `null`. -/
structure Branch where
  name : String
  buildId : JSValue
  timeUpdated : Option JSValue

/-- The `timeUpdated` field of a processed update: either
`new Date(timeupdated * 1000)` or the event timestamp. -/
inductive DateVal where
  | fromSecs : JSValue → DateVal
  | ts : Int → DateVal

/-- The object returned by `UpdateProcessor.process` on admission. -/
structure ProcessedUpdate where
  appId : Int
  appName : JSValue
  changenumber : JSValue
  buildId : JSValue
  timeUpdated : DateVal
  timestamp : Int
  branches : List Branch
  changedDepots : List Depot
  depotCount : Nat
  missingToken : JSValue

/-- Outcome of one `process` call: the new in-memory
`#lastChangenumber`, the arguments of the `#saveState` calls issued (in
order, before `process` returns), and the returned value (`none` for
the `return null` duplicate path). -/
structure ProcOut where
  cursor : Option Int
  saved : List Int
  result : Option ProcessedUpdate

-- ── Update processor operations ────────────────────────────────────────

/-- `nonDepotKeys` from `#extractChangedDepots`. -/
def nonDepotKeys : List String := ["branches", "maxsize", "depotfromapp", "baselanguages"]

/-- The `for (const [key, value] of Object.entries(depots))` loop body of
`#extractChangedDepots`: skip reserved keys and non-object values, keep
all-digit keys. -/
def extractChangedDepotsLoop : List (String × JSValue) → List Depot
  | [] => []
  | (key, value) :: rest =>
    if nonDepotKeys.contains key || jsTypeof value ≠ "object" then
      extractChangedDepotsLoop rest
    else if isDigits key then
      { id := key, name := jget value "name", maxsize := jget value "maxsize" }
        :: extractChangedDepotsLoop rest
    else
      extractChangedDepotsLoop rest

/-- `#extractChangedDepots`.  `Object.entries` of a non-object argument
contributes no object-valued numeric keys, so those cases yield `[]`. -/
def extractChangedDepots : JSValue → List Depot
  | .obj fs => extractChangedDepotsLoop fs
  | _ => []

/-- `#extractBranches`: map each entry of the branches object. -/
def extractBranches : JSValue → List Branch
  | .obj fs => fs.map (fun kv =>
      { name := kv.1
      , buildId := jget kv.2 "buildid"
      , timeUpdated := if truthy (jget kv.2 "timeupdated") then some (jget kv.2 "timeupdated") else none })
  | _ => []

/-- `const appinfo = data?.appinfo ?? data ?? {}` from `process`. -/
def effAppinfo (data : JSValue) : JSValue := orD (jget data "appinfo") (orD data (.obj []))

/-- Lines 81-112 of `update-processor.js`: extraction of app info and
construction of the `processed` object. -/
def normalizeEvent (ev : UpdateEvent) : ProcessedUpdate :=
  let appinfo := effAppinfo ev.data
  let common := orD (jget appinfo "common") (.obj [])
  let depots := orD (jget appinfo "depots") (.obj [])
  let branches := orD (jget depots "branches") (.obj [])
  let publicBranch := orD (jget branches "public") (.obj [])
  let buildId := orD (jget publicBranch "buildid") .null
  let timeUpdated := orD (jget publicBranch "timeupdated") .null
  let changedDepots := extractChangedDepots depots
  let appName := orD (jget common "name") (.str "Dota 2")
  { appId := DOTA2_APP_ID
  , appName := appName
  , changenumber :=
      match ev.changenumber with
      | some cn => .num cn
      | none => orD (jget ev.data "changenumber") (.str "Unknown")
  , buildId := buildId
  , timeUpdated := if truthy timeUpdated then .fromSecs timeUpdated else .ts ev.timestamp
  , timestamp := ev.timestamp
  , branches := extractBranches branches
  , changedDepots := changedDepots
  , depotCount := changedDepots.length
  , missingToken := orD (jget ev.data "missingToken") (.bool false) }

/-- The deduplication guard of `process`:
`changenumber && this.#lastChangenumber !== null && changenumber <= this.#lastChangenumber`.
A JS number is truthy exactly when nonzero. -/
def isDup (last : Option Int) (cn : Option Int) : Bool :=
  match cn, last with
  | some c, some l => c ≠ 0 && c ≤ l
  | _, _ => false

/-- `UpdateProcessor.process` acting on the in-memory cursor
`#lastChangenumber`.  After the duplicate check, the `processed` object
is built, then `if (changenumber)` the cursor is advanced and
`#saveState` called, and `processed` is returned. -/
def process (last : Option Int) (ev : UpdateEvent) : ProcOut :=
  if isDup last ev.changenumber then
    { cursor := last, saved := [], result := none }
  else
    let processed := normalizeEvent ev
    match ev.changenumber with
    | some cn =>
      if cn ≠ 0 then
        { cursor := some cn, saved := [cn], result := some processed }
      else
        { cursor := last, saved := [], result := some processed }
    | none => { cursor := last, saved := [], result := some processed }

-- ── Cursor store (state.json persistence) ──────────────────────────────

/-- The possible outcomes of reading the state file in `#loadState`:
the file does not exist (`existsSync` false), `readFileSync` throws,
`JSON.parse` throws, or a parsed state object is obtained. -/
inductive StoreRead where
  | absent : StoreRead
  | readError : String → StoreRead
  | parseError : String → StoreRead
  | content : JSValue → StoreRead

/-- Log severities used by `logger`. -/
inductive LogLevel where
  | info : LogLevel
  | warn : LogLevel
  | error : LogLevel
  | debug : LogLevel
deriving DecidableEq

/-- `#loadState`: the resulting `#lastChangenumber` value
(`state.lastChangenumber ?? null`, kept as a raw JS value) together
with the severity of the log line emitted.  Both exceptions land in the
`catch` block, which logs a warning and resets the cursor to null. -/
def loadState : StoreRead → JSValue × LogLevel
  | .absent => (.null, .info)
  | .readError _ => (.null, .warn)
  | .parseError _ => (.null, .warn)
  | .content st => (orD (jget st "lastChangenumber") .null, .info)

/-- `#saveState`: the `writeFileSync` outcome is caught inside the
method; success logs at debug severity, failure logs at error severity,
and in both cases the method returns normally (it never rethrows). -/
def saveStateLog : Except String Unit → LogLevel
  | .ok _ => .debug
  | .error _ => .error

-- ── Pipeline coordinator (runLiveMode in index.js) ─────────────────────

/-- Externally visible actions of the live-mode `dota2Update` handler,
in program order: each `#saveState` call made inside `process` (before
`process` returns), then — only when `process` returned a non-null
update — the `notifier.sendUpdate` call made by the handler. -/
inductive PipeAction where
  | persistCursor : Int → PipeAction
  | sendUpdate : ProcessedUpdate → PipeAction

/-- The `monitor.on('dota2Update', ...)` handler of `runLiveMode`:
run `process`; if it returned null, skip the notification; otherwise
hand the update to `notifier.sendUpdate`.  Returns the new cursor and
the ordered action trace. -/
def handleDota2Update (last : Option Int) (ev : UpdateEvent) : Option Int × List PipeAction :=
  let o := process last ev
  match o.result with
  | none => (o.cursor, o.saved.map PipeAction.persistCursor)
  | some u => (o.cursor, o.saved.map PipeAction.persistCursor ++ [PipeAction.sendUpdate u])

-- ── Session manager (steam-monitor.js) ─────────────────────────────────

/-- `BASE_RECONNECT_DELAY` (5 s). -/
def BASE_RECONNECT_DELAY : Int := 5000

/-- `MAX_RECONNECT_DELAY` (5 min). -/
def MAX_RECONNECT_DELAY : Int := 300000

/-- The observable state of a `SteamMonitor` instance: the `#connected`
flag, the `#reconnectAttempts` counter, the number of pending
`setTimeout` reconnect timers (the source never cancels one), the
number of `connect()` invocations made by timer callbacks, and the
delays passed to `setTimeout` so far (in order). -/
structure MonitorState where
  connected : Bool
  reconnectAttempts : Nat
  pendingTimers : Nat
  connectCalls : Nat
  scheduledDelays : List Int
deriving DecidableEq

/-- The state of a freshly constructed `SteamMonitor`. -/
def initialMonitorState : MonitorState :=
  { connected := false, reconnectAttempts := 0, pendingTimers := 0
  , connectCalls := 0, scheduledDelays := [] }

/-- `#scheduleReconnect`: compute
`Math.min(BASE_RECONNECT_DELAY * Math.pow(2, attempts), MAX_RECONNECT_DELAY)`
with the current attempt count, increment the counter, and arm a
`setTimeout` with the computed delay. -/
def scheduleReconnect (s : MonitorState) : MonitorState :=
  let delay := min (BASE_RECONNECT_DELAY * 2 ^ s.reconnectAttempts) MAX_RECONNECT_DELAY
  { s with reconnectAttempts := s.reconnectAttempts + 1
         , pendingTimers := s.pendingTimers + 1
         , scheduledDelays := s.scheduledDelays ++ [delay] }

/-- Events driving the session manager: the Steam client's `loggedOn`,
`error` and `disconnected` events, the firing of one pending reconnect
timer, and an external `disconnect()` call. -/
inductive SteamEvent where
  | loggedOn : SteamEvent
  | errorEvent : SteamEvent
  | disconnected : SteamEvent
  | timerFires : SteamEvent
  | disconnectCall : SteamEvent

/-- One step of the session manager.
`loggedOn` sets `#connected` and resets `#reconnectAttempts` to 0;
`error` and `disconnected` clear `#connected` and call
`#scheduleReconnect`; a firing timer runs the `setTimeout` callback,
which calls `connect()` exactly when `!this.#connected`;
`disconnect()` logs off and clears `#connected` (no timer is
cancelled — the source keeps no handle to them). -/
def stepEvent (s : MonitorState) : SteamEvent → MonitorState
  | .loggedOn => { s with connected := true, reconnectAttempts := 0 }
  | .errorEvent => scheduleReconnect { s with connected := false }
  | .disconnected => scheduleReconnect { s with connected := false }
  | .timerFires =>
      if s.pendingTimers > 0 then
        let s2 := { s with pendingTimers := s.pendingTimers - 1 }
        if !s2.connected then { s2 with connectCalls := s2.connectCalls + 1 } else s2
      else s
  | .disconnectCall => { s with connected := false }

/-- Run a sequence of session-manager events. -/
def runEvents (s : MonitorState) (evs : List SteamEvent) : MonitorState :=
  evs.foldl stepEvent s

-- ── Spec-side definitions (for refinement statements) ──────────────────

/-- Modelled from the spec's words (§8 Monotonic admission): the
strictly-increasing subsequence of a sequence-number list relative to
the running maximum, starting from an optional initial cursor. -/
def risingFilter (c : Option Int) : List Int → List Int
  | [] => []
  | s :: rest =>
    match c with
    | none => s :: risingFilter (some s) rest
    | some m => if s > m then s :: risingFilter (some s) rest else risingFilter (some m) rest

/-- The sequence numbers of the events admitted by feeding a list of
events through `process`, threading the in-memory cursor. -/
def admittedSeqs (last : Option Int) : List UpdateEvent → List Int
  | [] => []
  | ev :: rest =>
    let o := process last ev
    match o.result, ev.changenumber with
    | some _, some n => n :: admittedSeqs o.cursor rest
    | some _, none => admittedSeqs o.cursor rest
    | none, _ => admittedSeqs o.cursor rest

-- ── Concrete fixtures used by witnesses and counterexamples ────────────

/-- A minimal raw event with an empty data blob. -/
def evFix (cn : Option Int) : UpdateEvent :=
  { appid := 570, data := JSValue.obj [], changenumber := cn, timestamp := 11 }

/-- A raw event with a null event-level changenumber whose data blob
carries its own changenumber. -/
def evFixD : UpdateEvent :=
  { appid := 570, data := JSValue.obj [("changenumber", JSValue.num 42)]
  , changenumber := none, timestamp := 3 }

-- ── Theorems ───────────────────────────────────────────────────────────

/-- C3: an event whose changenumber is absent (null) is always admitted —
`process` returns the normalized update — and neither the in-memory
cursor nor the persisted state file changes (no `#saveState` call). -/
theorem null_sequence_passthrough (c : Option Int) (ev : UpdateEvent)
    (h : ev.changenumber = none) :
    (process c ev).result = some (normalizeEvent ev) ∧
    (process c ev).cursor = c ∧ (process c ev).saved = [] := by
  cases c <;> simp [process, isDup, h]

/-- Witness for C3 at a concrete cursor and event. -/
theorem null_sequence_passthrough_witness :
    (process (some 9) (evFix none)).result = some (normalizeEvent (evFix none)) ∧
    (process (some 9) (evFix none)).cursor = some 9 ∧
    (process (some 9) (evFix none)).saved = [] :=
  null_sequence_passthrough (some 9) (evFix none) rfl

/-- C9: an event with changenumber exactly 0 is treated like one with no
changenumber: for every cursor state (including cursors greater than 0)
it is admitted, and the cursor is neither advanced nor persisted,
because both guards test JS truthiness and `0` is falsy. -/
theorem zero_sequence_passthrough (c : Option Int) (ev : UpdateEvent)
    (h : ev.changenumber = some 0) :
    (process c ev).result = some (normalizeEvent ev) ∧
    (process c ev).cursor = c ∧ (process c ev).saved = [] := by
  cases c <;> simp [process, isDup, h]

/-- Witness for C9 with a cursor strictly greater than 0. -/
theorem zero_sequence_passthrough_witness :
    (process (some 100) (evFix (some 0))).result = some (normalizeEvent (evFix (some 0))) ∧
    (process (some 100) (evFix (some 0))).cursor = some 100 ∧
    (process (some 100) (evFix (some 0))).saved = [] :=
  zero_sequence_passthrough (some 100) (evFix (some 0)) rfl

/-- C10: when the event-level changenumber is null but the data blob
carries a non-null `changenumber`, the returced update displays the
data-level value, the cursor is neither advanced nor persisted, and
reprocessing the same event from the resulting cursor returns the
identical update again. -/
theorem data_changenumber_display (c : Option Int) (ev : UpdateEvent)
    (h1 : ev.changenumber = none) (h2 : isNull (jget ev.data "changenumber") = false) :
    ∃ u, (process c ev).result = some u ∧
      u.changenumber = jget ev.data "changenumber" ∧
      (process c ev).cursor = c ∧ (process c ev).saved = [] ∧
      (process (process c ev).cursor ev).result = some u := by
  refine ⟨normalizeEvent ev, ?_, ?_, ?_, ?_, ?_⟩
  · cases c <;> simp [process, isDup, h1]
  · simp [normalizeEvent, h1, orD, h2]
  · cases c <;> simp [process, isDup, h1]
  · cases c <;> simp [process, isDup, h1]
  · have hc : (process c ev).cursor = c := by cases c <;> simp [process, isDup, h1]
    rw [hc]; cases c <;> simp [process, isDup, h1]

/-- Witness for C10 at a concrete event carrying `data.changenumber = 42`. -/
theorem data_changenumber_display_witness :
    ∃ u, (process (some 5) evFixD).result = some u ∧
      u.changenumber = jget evFixD.data "changenumber" ∧
      (process (some 5) evFixD).cursor = some 5 ∧
      (process (some 5) evFixD).saved = [] ∧
      (process (process (some 5) evFixD).cursor evFixD).result = some u :=
  data_changenumber_display (some 5) evFixD rfl rfl

/-- C2 (amended): when an event with a known *nonzero* changenumber is
admitted, `process` advances the in-memory cursor to it and issues the
`#saveState` call before returning, and the live-mode handler invokes
`notifier.sendUpdate` only after `process` has returned: the handler's
action trace is exactly persist-then-send.  (The restriction to nonzero
is forced: sequence number 0 is displayed as a known changenumber yet
is handed downstream with no persist — see the counterexample below.) -/
theorem persist_before_handoff (last : Option Int) (ev : UpdateEvent) (n : Int)
    (h1 : ev.changenumber = some n) (h2 : n ≠ 0)
    (h3 : (process last ev).result.isSome = true) :
    (process last ev).cursor = some n ∧ (process last ev).saved = [n] ∧
    ∃ u, (process last ev).result = some u ∧
      (handleDota2Update last ev).2
        = [PipeAction.persistCursor n, PipeAction.sendUpdate u] := by
  cases hd : isDup last ev.changenumber with
  | true => simp [process, hd] at h3
  | false =>
    rw [h1] at hd
    refine ⟨?_, ?_, normalizeEvent ev, ?_, ?_⟩ <;>
      simp [process, handleDota2Update, hd, h1, h2]

/-- Witness for C2 at a concrete admitted event. -/
theorem persist_before_handoff_witness :
    (process none (evFix (some 7))).cursor = some 7 ∧
    (process none (evFix (some 7))).saved = [7] ∧
    ∃ u, (process none (evFix (some 7))).result = some u ∧
      (handleDota2Update none (evFix (some 7))).2
        = [PipeAction.persistCursor 7, PipeAction.sendUpdate u] :=
  persist_before_handoff none (evFix (some 7)) 7 rfl (by decide) rfl

/-- C2 (counterexample to the claim as stated): at cursor 5, an event
with known sequence number 0 — the returned update displays
changenumber 0, not `'Unknown'` — is admitted and handed to
`notifier.sendUpdate`, yet `process` neither updates the in-memory
cursor nor issues any `#saveState` call: the handler trace contains a
send with no preceding persist, so the persisted cursor is *not*
written before the update goes downstream. -/
theorem persist_before_handoff_cex :
    (process (some 5) (evFix (some 0))).result
        = some (normalizeEvent (evFix (some 0))) ∧
    (normalizeEvent (evFix (some 0))).changenumber = JSValue.num 0 ∧
    (process (some 5) (evFix (some 0))).saved = [] ∧
    (process (some 5) (evFix (some 0))).cursor = some 5 ∧
    (handleDota2Update (some 5) (evFix (some 0))).2
        = [PipeAction.sendUpdate (normalizeEvent (evFix (some 0)))] :=
  ⟨rfl, rfl, rfl, rfl, rfl⟩

/-- Any non-duplicate call of `process` returns the normalized update. -/
lemma process_result_of_not_dup (c : Option Int) (ev : UpdateEvent)
    (h : isDup c ev.changenumber = false) :
    (process c ev).result = some (normalizeEvent ev) := by
  unfold process
  rw [h]
  simp only [Bool.false_eq_true, if_false]
  cases hcn : ev.changenumber with
  | none => rfl
  | some n => by_cases hn : n = 0 <;> simp [hn]

/-- C6: for an event whose data blob is missing all optional nested
fields (absent or empty `appinfo`/`common`/`depots`), a non-duplicate
`process` call returns (never throws — the model is total) an update
with `appName` defaulted to `'Dota 2'`, `buildId` null, and empty
`changedDepots` and `branches` lists. -/
theorem normalization_defaulting (c : Option Int) (ev : UpdateEvent)
    (hc : jget (effAppinfo ev.data) "common" = .null ∨
          jget (effAppinfo ev.data) "common" = .obj [])
    (hd : jget (effAppinfo ev.data) "depots" = .null ∨
          jget (effAppinfo ev.data) "depots" = .obj [])
    (hadm : isDup c ev.changenumber = false) :
    ∃ u, (process c ev).result = some u ∧
      u.appName = .str "Dota 2" ∧ u.buildId = .null ∧
      u.changedDepots = [] ∧ u.branches = [] := by
  refine ⟨normalizeEvent ev, process_result_of_not_dup c ev hadm, ?_, ?_, ?_, ?_⟩ <;>
    simp only [normalizeEvent] <;>
    rcases hc with hc | hc <;> rcases hd with hd | hd <;>
    simp only [hc, hd] <;>
      simp [orD, isNull, jget, extractChangedDepots, extractChangedDepotsLoop, extractBranches]

/-- Witness for C6 on an event with an empty data blob. -/
theorem normalization_defaulting_witness :
    ∃ u, (process none (evFix none)).result = some u ∧
      u.appName = .str "Dota 2" ∧ u.buildId = .null ∧
      u.changedDepots = [] ∧ u.branches = [] :=
  normalization_defaulting none (evFix none) (Or.inl rfl) (Or.inl rfl) rfl

/-- C8: cursor-store failures are never fatal.  An absent state file
loads as a null cursor at info severity; an unreadable file or invalid
JSON loads as a null cursor at warn severity; no load path ever logs at
error severity; a failing `#saveState` is caught and logged at error
severity (the function returns normally); and whenever `process` issues
a save at all, it is returning an admitted update. -/
theorem store_failures_nonfatal :
    loadState .absent = (JSValue.null, LogLevel.info) ∧
    (∀ m, loadState (.readError m) = (JSValue.null, LogLevel.warn)) ∧
    (∀ m, loadState (.parseError m) = (JSValue.null, LogLevel.warn)) ∧
    (∀ r, (loadState r).2 ≠ LogLevel.error) ∧
    (∀ m, saveStateLog (.error m) = LogLevel.error) ∧
    (∀ c ev, (process c ev).saved ≠ [] → ∃ u, (process c ev).result = some u) := by
  refine ⟨rfl, fun m => rfl, fun m => rfl, ?_, fun m => rfl, ?_⟩
  · intro r; cases r <;> simp [loadState]
  · intro c ev hs
    cases hb : isDup c ev.changenumber with
    | true => exact absurd (by simp [process, hb]) hs
    | false => exact ⟨normalizeEvent ev, process_result_of_not_dup c ev hb⟩

/-- Witness for C8, exercising the save-implies-admission conjunct at a
concrete input. -/
theorem store_failures_nonfatal_witness :
    ∃ u, (process none (evFix (some 3))).result = some u :=
  store_failures_nonfatal.2.2.2.2.2 none (evFix (some 3)) (by decide)


/-- C7: `#extractChangedDepots` keeps exactly the entries whose key is an
all-digit token, is not one of the reserved keys (`branches`, `maxsize`,
`depotfromapp`, `baselanguages`), and whose value is of JS type
`'object'` (which, by the `typeof` quirk, includes `null`); every other
entry is silently skipped, and extraction is a total function (the
embedded loop can never throw). -/
theorem changed_depots_characterization (fs : List (String × JSValue)) (d : Depot) :
    d ∈ extractChangedDepots (JSValue.obj fs) ↔
      ∃ v, (d.id, v) ∈ fs ∧ isDigits d.id = true ∧
        d.id ∉ nonDepotKeys ∧ jsTypeof v = "object" ∧
        d.name = jget v "name" ∧ d.maxsize = jget v "maxsize" := by
  obtain ⟨did, dn, dm⟩ := d
  show Depot.mk did dn dm ∈ extractChangedDepotsLoop fs ↔ _
  induction fs with
  | nil => simp [extractChangedDepotsLoop]
  | cons kv rest ih =>
    obtain ⟨key, value⟩ := kv
    rw [extractChangedDepotsLoop]
    split_ifs with h1 h2 <;>
      simp only [not_or, Bool.or_eq_true, decide_eq_true_eq, not_not] at h1 <;>
      simp only [List.mem_cons, ih, Prod.mk.injEq, Depot.mk.injEq] <;>
      aesop

/-- C5 (failing execution): from a fresh monitor, an upstream error event
schedules a reconnect timer; `disconnect()` is then called; when the
pending timer later fires, its callback observes `#connected == false`
and invokes `connect()` — the monitor re-initiates a connection after an
explicit shutdown, with no external connect request in between. -/
theorem disconnect_pending_timer_reconnects :
    (runEvents initialMonitorState
        [SteamEvent.errorEvent, SteamEvent.disconnectCall]).connectCalls = 0 ∧
    (runEvents initialMonitorState
        [SteamEvent.errorEvent, SteamEvent.disconnectCall]).pendingTimers = 1 ∧
    (runEvents initialMonitorState
        [SteamEvent.errorEvent, SteamEvent.disconnectCall]).connected = false ∧
    (runEvents initialMonitorState
        [SteamEvent.errorEvent, SteamEvent.disconnectCall,
         SteamEvent.timerFires]).connectCalls = 1 :=
  ⟨rfl, rfl, rfl, rfl⟩

/-- Effect of `k` consecutive failure events on the backoff state. -/
lemma runEvents_errors (k : Nat) (s : MonitorState) :
    (runEvents s (List.replicate k SteamEvent.errorEvent)).scheduledDelays
      = s.scheduledDelays ++ (List.range k).map
          (fun i => min (BASE_RECONNECT_DELAY * 2 ^ (s.reconnectAttempts + i)) MAX_RECONNECT_DELAY) ∧
    (runEvents s (List.replicate k SteamEvent.errorEvent)).reconnectAttempts
      = s.reconnectAttempts + k := by
  induction k with
  | zero => simp [runEvents]
  | succ k ih =>
    rw [List.replicate_succ']
    unfold runEvents at ih ⊢
    rw [List.foldl_append]
    obtain ⟨ih1, ih2⟩ := ih
    constructor
    · simp only [List.foldl_cons, List.foldl_nil, stepEvent, scheduleReconnect, ih1, ih2,
        List.range_succ, List.map_append, List.map_cons, List.map_nil, List.append_assoc]
    · simp only [List.foldl_cons, List.foldl_nil, stepEvent, scheduleReconnect, ih2]
      omega

/-- C4: the delay scheduled by `#scheduleReconnect` at attempt count `a`
is `min(5000 * 2^a, 300000)` and each call increments the counter by
one; consequently `k` consecutive failures starting from a reset
counter schedule the delays `min(5000 * 2^i, 300000)` for `i = 0..k-1`;
and the `loggedOn` handler resets the counter to 0. -/
theorem backoff_growth_and_reset (s : MonitorState) (k : Nat)
    (h : s.reconnectAttempts = 0) :
    (∀ t : MonitorState,
       (scheduleReconnect t).scheduledDelays
         = t.scheduledDelays ++ [min (5000 * 2 ^ t.reconnectAttempts) 300000] ∧
       (scheduleReconnect t).reconnectAttempts = t.reconnectAttempts + 1) ∧
    (runEvents s (List.replicate k SteamEvent.errorEvent)).scheduledDelays
      = s.scheduledDelays ++ (List.range k).map (fun i => min (5000 * 2 ^ i) 300000) ∧
    (runEvents s (List.replicate k SteamEvent.errorEvent)).reconnectAttempts = k ∧
    (∀ t : MonitorState, (stepEvent t SteamEvent.loggedOn).reconnectAttempts = 0) := by
  refine ⟨fun t => ⟨rfl, rfl⟩, ?_, ?_, fun t => rfl⟩
  · rw [(runEvents_errors k s).1, h]
    simp [BASE_RECONNECT_DELAY, MAX_RECONNECT_DELAY]
  · rw [(runEvents_errors k s).2, h, Nat.zero_add]

/-- Witness for C4 at eight consecutive failures (the cap is reached at
the seventh). -/
theorem backoff_growth_and_reset_witness :
    (∀ t : MonitorState,
       (scheduleReconnect t).scheduledDelays
         = t.scheduledDelays ++ [min (5000 * 2 ^ t.reconnectAttempts) 300000] ∧
       (scheduleReconnect t).reconnectAttempts = t.reconnectAttempts + 1) ∧
    (runEvents initialMonitorState (List.replicate 8 SteamEvent.errorEvent)).scheduledDelays
      = initialMonitorState.scheduledDelays
          ++ (List.range 8).map (fun i => min (5000 * 2 ^ i) 300000) ∧
    (runEvents initialMonitorState (List.replicate 8 SteamEvent.errorEvent)).reconnectAttempts = 8 ∧
    (∀ t : MonitorState, (stepEvent t SteamEvent.loggedOn).reconnectAttempts = 0) :=
  backoff_growth_and_reset initialMonitorState 8 rfl

/-- Single-step admission characterization for nonzero sequence numbers. -/
lemma process_reject_iff (c : Option Int) (ev : UpdateEvent) (n : Int)
    (h : ev.changenumber = some n) (hn : n ≠ 0) :
    ((process c ev).result = none ↔ ∃ m, c = some m ∧ n ≤ m) ∧
    ((process c ev).result ≠ none → (process c ev).cursor = some n) := by
  cases c with
  | none =>
    have hd : isDup none ev.changenumber = false := by simp [isDup, h]
    constructor
    · rw [process_result_of_not_dup none ev hd]; simp
    · intro _; simp [process, isDup, h, hn]
  | some m =>
    by_cases hle : n ≤ m
    · have hd : isDup (some m) ev.changenumber = true := by simp [isDup, h, hn, hle]
      have hp : process (some m) ev = { cursor := some m, saved := [], result := none } := by
        simp [process, hd]
      rw [hp]
      exact ⟨by simp [hle], fun hne => absurd rfl hne⟩
    · have hd : isDup (some m) ev.changenumber = false := by simp [isDup, h, hle]
      constructor
      · rw [process_result_of_not_dup _ _ hd]; simp [hle]
      · intro _; simp [process, isDup, h, hn, hle]

/-- One-step unfolding of `admittedSeqs`. -/
lemma admittedSeqs_cons (c : Option Int) (ev : UpdateEvent) (rest : List UpdateEvent) :
    admittedSeqs c (ev :: rest) =
      match (process c ev).result, ev.changenumber with
      | some _, some n => n :: admittedSeqs (process c ev).cursor rest
      | some _, none => admittedSeqs (process c ev).cursor rest
      | none, _ => admittedSeqs (process c ev).cursor rest := rfl

/-- The admitted sequence numbers are the strictly-increasing
subsequence relative to the running maximum, for nonzero inputs. -/
lemma admittedSeqs_eq_risingFilter (c : Option Int) (evs : List UpdateEvent)
    (h : ∀ ev ∈ evs, ∃ n, ev.changenumber = some n ∧ n ≠ 0) :
    admittedSeqs c evs = risingFilter c (evs.map (fun ev => ev.changenumber.getD 0)) := by
  induction evs generalizing c with
  | nil => simp [admittedSeqs, risingFilter]
  | cons ev rest ih =>
    obtain ⟨n, hcn, hn⟩ := h ev (List.mem_cons_self ev rest)
    have hrest : ∀ e ∈ rest, ∃ n, e.changenumber = some n ∧ n ≠ 0 :=
      fun e he => h e (List.mem_cons_of_mem ev he)
    rw [List.map_cons, admittedSeqs_cons, hcn]
    cases c with
    | none =>
      have hd : isDup none ev.changenumber = false := by simp [isDup, hcn]
      have hp : process none ev
          = { cursor := some n, saved := [n], result := some (normalizeEvent ev) } := by
        simp [process, isDup, hcn, hn]
      rw [hp]
      simp [risingFilter, ih _ hrest]
    | some m =>
      by_cases hle : n ≤ m
      · have hd : isDup (some m) ev.changenumber = true := by simp [isDup, hcn, hn, hle]
        have hp : process (some m) ev
            = { cursor := some m, saved := [], result := none } := by
          simp [process, hd]
        rw [hp]
        simp [risingFilter, not_lt.mpr hle, ih _ hrest]
      · have hd : isDup (some m) ev.changenumber = false := by simp [isDup, hcn, hle]
        have hp : process (some m) ev
            = { cursor := some n, saved := [n], result := some (normalizeEvent ev) } := by
          simp [process, isDup, hcn, hn, hle]
        rw [hp]
        simp [risingFilter, lt_of_not_le hle, ih _ hrest]

/-- C1 (amended): restricted to events with nonzero integer sequence
numbers, the admitted sequence numbers form exactly the
strictly-increasing subsequence relative to the running maximum; an
event is rejected iff a cursor value exists and its sequence number is
at most the cursor; and every admission sets the cursor to the admitted
sequence number. -/
theorem monotonic_admission_nonzero (c : Option Int) (evs : List UpdateEvent)
    (h : ∀ ev ∈ evs, ∃ n, ev.changenumber = some n ∧ n ≠ 0) :
    admittedSeqs c evs = risingFilter c (evs.map (fun ev => ev.changenumber.getD 0)) ∧
    ∀ (c2 : Option Int) (ev : UpdateEvent) (n : Int), ev.changenumber = some n → n ≠ 0 →
      (((process c2 ev).result = none) ↔ ∃ m, c2 = some m ∧ n ≤ m) ∧
      ((process c2 ev).result ≠ none → (process c2 ev).cursor = some n) :=
  ⟨admittedSeqs_eq_risingFilter c evs h,
   fun c2 ev n h1 h2 => process_reject_iff c2 ev n h1 h2⟩

/-- Witness for the amended C1 on the spec's own scenario (§8): cursor
100 with inputs 99, 101, 101, 103. -/
theorem monotonic_admission_nonzero_witness :
    admittedSeqs (some 100)
        [evFix (some 99), evFix (some 101), evFix (some 101), evFix (some 103)]
      = risingFilter (some 100)
          (([evFix (some 99), evFix (some 101), evFix (some 101), evFix (some 103)]).map
            (fun ev => ev.changenumber.getD 0)) ∧
    ∀ (c2 : Option Int) (ev : UpdateEvent) (n : Int), ev.changenumber = some n → n ≠ 0 →
      (((process c2 ev).result = none) ↔ ∃ m, c2 = some m ∧ n ≤ m) ∧
      ((process c2 ev).result ≠ none → (process c2 ev).cursor = some n) :=
  monotonic_admission_nonzero (some 100)
    [evFix (some 99), evFix (some 101), evFix (some 101), evFix (some 103)]
    (by
      intro ev hev
      simp only [List.mem_cons, List.not_mem_nil, or_false] at hev
      rcases hev with rfl | rfl | rfl | rfl <;> exact ⟨_, rfl, by decide⟩)

/-- C1 (counterexample to the claim as stated): with cursor 5 and an
event whose sequence number is 0, a cursor value exists and 0 ≤ 5, so
the claim demands rejection; but `process` admits the event, and the
cursor stays 5 instead of being set to the admitted number. -/
theorem monotonic_admission_cex :
    (0 : Int) ≤ 5 ∧
    (process (some 5) (evFix (some 0))).result.isSome = true ∧
    (process (some 5) (evFix (some 0))).cursor = some 5 :=
  ⟨by decide, rfl, rfl⟩
